import Mathlib

/-!
Verification of the appointment-booking frontend against its specification.

The client code is shallowly embedded: each React event handler is modelled
as a pure function from the component state (and the outcome of the awaited
API call, passed in explicitly) to the next component state.  Machine strings
are Lean `String`, JS arrays are `List`, optional JS fields are `Option`,
and a rejected promise carrying an `Error` with a message is
`Except String α` in the error case.

The backend availability/capacity engine is not part of this repository;
where a claim is about it, the engine is modelled from the specification
text (each such definition is marked `Modelled from the spec:`).
-/

namespace Booking

/-! ## Data model (src/src/services/api.ts) -/

/-- `Provider` record shape from api.ts. -/
structure Provider where
  id : String
  userId : String
  firstName : String
  lastName : String
  phone : String
  providerType : String
  businessName : String
  specialization : Option String
  licenseNumber : Option String
  bio : Option String
  slotDurationMinutes : Nat
  bookingLimitDays : Nat
  isActive : Bool
deriving Repr, DecidableEq

/-- `AvailableDate` record shape from api.ts. -/
structure AvailableDate where
  date : String
  dayOfWeek : Nat
  dayName : String
  isAvailable : Bool
  reason : Option String
deriving Repr, DecidableEq

/-- `TimeSlot` record shape from api.ts; start and end times are ISO
timestamp strings. -/
structure TimeSlot where
  startTime : String
  endTime : String
  isAvailable : Bool
  capacity : Option Nat
  bookedCount : Option Nat
  remainingSlots : Option Nat
deriving Repr, DecidableEq

/-- `BookAppointmentRequest` record shape from api.ts: exactly the four
fields the interface declares. -/
structure BookAppointmentRequest where
  providerId : String
  appointmentDate : String
  startTime : String
  serviceDescription : Option String
deriving Repr, DecidableEq

/-- A JS `number` as the schedule form handles it: either an integer or
`NaN`, which is what `parseInt` returns on a cleared input field. -/
inductive JSNumber where
  | nan
  | int (i : Int)
deriving Repr, DecidableEq

/-- JS `<=` on numbers: any comparison with `NaN` is false. -/
def jsLe : JSNumber → JSNumber → Bool
  | .nan, _ => false
  | _, .nan => false
  | .int a, .int b => a ≤ b

/-- JS `>` on numbers: any comparison with `NaN` is false. -/
def jsGt : JSNumber → JSNumber → Bool
  | .nan, _ => false
  | _, .nan => false
  | .int a, .int b => b < a

/-- `ScheduleConfigRequest` record shape from api.ts; both numeric fields
are produced by `parseInt`, so they may carry `NaN`. -/
structure ScheduleConfigRequest where
  dayOfWeek : JSNumber
  startTime : String
  endTime : String
  slotMetric : JSNumber
  isCount : Bool
deriving Repr, DecidableEq

/-- `ScheduleConfig` record shape from api.ts. -/
structure ScheduleConfig where
  id : String
  providerId : String
  dayOfWeek : Nat
  startTime : String
  endTime : String
  slotMetric : Int
  isCount : Bool
  isActive : Bool
  createdAt : String
  updatedAt : String
deriving Repr, DecidableEq

/-- `Appointment` record shape from api.ts (scalar fields; the optional
nested provider and customer objects are not referenced by any handler
modelled here). -/
structure Appointment where
  id : String
  customerId : String
  providerId : String
  appointmentDate : String
  startTime : String
  endTime : String
  serviceDescription : Option String
  notes : Option String
  status : String
  cancellationReason : Option String
  cancelledBy : Option String
  cancelledAt : Option String
  createdAt : String
  updatedAt : String
deriving Repr, DecidableEq

/-! ## api.ts response unwrapping for the two availability queries

`getAvailableDates` posts to the available-dates endpoint and returns
`response.dates || []`; `getAvailableSlots` likewise returns
`response.slots || []`.  A missing or null field is `none`; a JS array
(also the empty one, which is truthy) is `some`. -/

/-- Wrapped body of the available-dates response as api.ts reads it. -/
structure AvailableDatesResponse where
  dates : Option (List AvailableDate)
deriving Repr, DecidableEq

/-- Wrapped body of the available-slots response as api.ts reads it. -/
structure AvailableSlotsResponse where
  slots : Option (List TimeSlot)
deriving Repr, DecidableEq

/-- api.ts `getAvailableDates` result extraction: `response.dates || []`. -/
def getAvailableDates (resp : AvailableDatesResponse) : List AvailableDate :=
  resp.dates.getD []

/-- api.ts `getAvailableSlots` result extraction: `response.slots || []`. -/
def getAvailableSlots (resp : AvailableSlotsResponse) : List TimeSlot :=
  resp.slots.getD []

/-! ## Customer page state (src/unnamed/part_003)

The eight `useState` cells that the booking flow reads and writes. -/

structure CustomerState where
  providers : List Provider
  availableDates : List AvailableDate
  timeSlots : List TimeSlot
  selectedProviderType : String
  selectedProvider : String
  selectedDate : String
  selectedTimeSlot : String
  serviceDescription : String
deriving Repr, DecidableEq

/-- `loadAvailableDates`: clears the date list, the date selection, the
slot list and the slot selection, then on a successful response stores
`dates.filter(d => d.isAvailable)`; on failure only the clearing remains. -/
def loadAvailableDates (st : CustomerState)
    (result : Except String (List AvailableDate)) : CustomerState :=
  let cleared := { st with availableDates := [], selectedDate := "",
                           timeSlots := [], selectedTimeSlot := "" }
  match result with
  | .ok dates => { cleared with availableDates := dates.filter (fun d => d.isAvailable) }
  | .error _ => cleared

/-- The date `Select` renders one item per entry of `availableDates`. -/
def renderedDateOptions (st : CustomerState) : List AvailableDate :=
  st.availableDates

/-- `loadTimeSlots`: clears the slot list and the slot selection, then on a
successful response stores all returned slots; on failure only the clearing
remains. -/
def loadTimeSlots (st : CustomerState)
    (result : Except String (List TimeSlot)) : CustomerState :=
  let cleared := { st with timeSlots := [], selectedTimeSlot := "" }
  match result with
  | .ok slots => { cleared with timeSlots := slots }
  | .error _ => cleared

/-- The time-slot `Select` renders `timeSlots.filter(slot => slot.isAvailable)`. -/
def selectableTimeSlots (st : CustomerState) : List TimeSlot :=
  st.timeSlots.filter (fun s => s.isAvailable)

/-! ## Claims C1, C2, C10 -/

/-- C1: after `loadAvailableDates` succeeds with list `dates`, the list the
client renders for selection holds exactly the entries of `dates` whose
`isAvailable` field is true, in their original order (it is a sublist of
`dates`), and entries with `isAvailable = false` are excluded. -/
theorem C1_available_dates_filtered (st : CustomerState)
    (dates : List AvailableDate) :
    (∀ d, d ∈ renderedDateOptions (loadAvailableDates st (.ok dates)) ↔
        d ∈ dates ∧ d.isAvailable = true) ∧
    (renderedDateOptions (loadAvailableDates st (.ok dates))).Sublist dates := by
  refine ⟨?_, ?_⟩
  · intro d
    simp [renderedDateOptions, loadAvailableDates, List.mem_filter]
  · simp only [renderedDateOptions, loadAvailableDates]
    exact List.filter_sublist dates

/-- C2: after `loadTimeSlots` succeeds with list `slots`, the client stores
all returned windows, including unavailable ones, while the selectable list
offered for booking holds exactly the windows with `isAvailable = true`. -/
theorem C2_time_slots_stored_and_selectable (st : CustomerState)
    (slots : List TimeSlot) :
    (loadTimeSlots st (.ok slots)).timeSlots = slots ∧
    (∀ s, s ∈ selectableTimeSlots (loadTimeSlots st (.ok slots)) ↔
        s ∈ slots ∧ s.isAvailable = true) := by
  refine ⟨rfl, ?_⟩
  intro s
  simp [selectableTimeSlots, loadTimeSlots, List.mem_filter]

/-- C10: `getAvailableDates` and `getAvailableSlots` always return an
array: when the wrapped `dates` (respectively `slots`) field is missing or
null the result is the empty array, and when the field is present the
result is that array. -/
theorem C10_availability_queries_return_arrays
    (dresp : AvailableDatesResponse) (sresp : AvailableSlotsResponse) :
    (dresp.dates = none → getAvailableDates dresp = []) ∧
    (∀ l, dresp.dates = some l → getAvailableDates dresp = l) ∧
    (sresp.slots = none → getAvailableSlots sresp = []) ∧
    (∀ l, sresp.slots = some l → getAvailableSlots sresp = l) := by
  refine ⟨?_, ?_, ?_, ?_⟩ <;> intro h
  · simp [getAvailableDates, h]
  · intro hl; simp [getAvailableDates, hl]
  · simp [getAvailableSlots, h]
  · intro hl; simp [getAvailableSlots, hl]

/-- Concrete instantiation for C10: a response with a missing field yields
the empty array, and one with a one-element field yields that element. -/
theorem C10_availability_queries_return_arrays_witness :
    getAvailableDates ⟨none⟩ = [] ∧
    getAvailableSlots ⟨some [⟨"a", "b", true, none, none, none⟩]⟩ =
      [⟨"a", "b", true, none, none, none⟩] :=
  ⟨(C10_availability_queries_return_arrays ⟨none⟩ ⟨none⟩).1 rfl,
   (C10_availability_queries_return_arrays ⟨none⟩
      ⟨some [⟨"a", "b", true, none, none, none⟩]⟩).2.2.2 _ rfl⟩

/-! ## Time formatting (Customer page helpers)

`formatTimeTo24Hour(isoString)` is `new Date(isoString).toTimeString().slice(0, 5)`.
A JS `Date` built from a timestamp, rendered by `toTimeString`, yields
`"HH:mm:ss GMT..."` in the local timezone with zero-padded two-digit
fields.  The browser `Date` parser is an external collaborator, so the
model takes it as an explicit function argument `parse`. -/

/-- The local-time view of a parsed JS `Date`: hour, minute, second, and
the timezone suffix that `toTimeString` appends after the seconds. -/
structure Instant where
  hour : Nat
  minute : Nat
  second : Nat
  tzSuffix : String
deriving Repr, DecidableEq

/-- Two-digit zero padding, as JS `toTimeString` renders each field. -/
def pad2 (n : Nat) : String :=
  if n < 10 then "0" ++ toString n else toString n

/-- JS `Date.prototype.toTimeString`: `"HH:mm:ss "` followed by the
timezone suffix, in local time. -/
def toTimeString (i : Instant) : String :=
  pad2 i.hour ++ ":" ++ pad2 i.minute ++ ":" ++ pad2 i.second ++ " " ++ i.tzSuffix

/-- JS `String.prototype.slice(a, b)` for `0 ≤ a ≤ b`. -/
def jsSlice (s : String) (a b : Nat) : String :=
  String.mk ((s.data.drop a).take (b - a))

/-- `formatTimeTo24Hour`: parse the ISO string with the ambient `Date`
parser and take the first five characters of `toTimeString`. -/
def formatTimeTo24Hour (parse : String → Instant) (s : String) : String :=
  jsSlice (toTimeString (parse s)) 0 5

/-- The `HH:mm` (24-hour) reduction of an instant. -/
def hhmm (i : Instant) : String :=
  pad2 i.hour ++ ":" ++ pad2 i.minute

theorem pad2_data_length {n : Nat} (h : n < 60) : (pad2 n).data.length = 2 := by
  have hall : ∀ k : Fin 60, ((pad2 k.val).data.length = 2) := by decide
  exact hall ⟨n, h⟩

theorem formatTimeTo24Hour_eq_hhmm (parse : String → Instant) (s : String)
    (hh : (parse s).hour < 24) (hm : (parse s).minute < 60) :
    formatTimeTo24Hour parse s = hhmm (parse s) := by
  set i := parse s with hi
  have hlenh : (pad2 i.hour).data.length = 2 := pad2_data_length (by omega)
  have hlenm : (pad2 i.minute).data.length = 2 := pad2_data_length hm
  have hdata : (toTimeString i).data =
      (hhmm i).data ++ ((":" ++ pad2 i.second ++ " " ++ i.tzSuffix).data) := by
    simp [toTimeString, hhmm, String.data_append]
  have hlen5 : (hhmm i).data.length = 5 := by
    simp [hhmm, String.data_append, hlenh, hlenm]
  have : ((toTimeString i).data.drop 0).take 5 = (hhmm i).data := by
    rw [List.drop_zero, hdata, List.take_left' hlen5]
  simp only [formatTimeTo24Hour, jsSlice, Nat.sub_zero, this]

/-! ## Booking submission (Customer page, handleBookAppointment)

The handler awaits `apiService.bookAppointment`; the API call is modelled
as a function from the request to an `Except`, and the time-slot re-query
performed in the conflict branch is modelled by passing in its eventual
result together with the arguments the handler uses for it. -/

/-- Helper for `jsIncludes`: does `pat` occur as a contiguous run of `text`? -/
def jsIncludesAux (pat : List Char) : List Char → Bool
  | [] => pat.isEmpty
  | c :: rest => pat.isPrefixOf (c :: rest) || jsIncludesAux pat rest

/-- JS `String.prototype.includes`. -/
def jsIncludes (s sub : String) : Bool :=
  jsIncludesAux sub.data s.data

/-- The conflict test of the catch branch:
`errorMessage.includes("Unique constraint") || errorMessage.includes("already booked")`. -/
def isSlotConflictMessage (msg : String) : Bool :=
  jsIncludes msg "Unique constraint" || jsIncludes msg "already booked"

/-- The request body `handleBookAppointment` passes to
`apiService.bookAppointment` (empty service description becomes
`undefined` via `serviceDescription || undefined`). -/
def mkBookRequest (parse : String → Instant) (st : CustomerState) :
    BookAppointmentRequest :=
  { providerId := st.selectedProvider
    appointmentDate := st.selectedDate
    startTime := formatTimeTo24Hour parse st.selectedTimeSlot
    serviceDescription :=
      if st.serviceDescription = "" then none else some st.serviceDescription }

/-- The success branch resets every selection and every loaded list. -/
def resetAfterSuccess (st : CustomerState) : CustomerState :=
  { st with selectedProviderType := "", selectedProvider := "",
            selectedDate := "", selectedTimeSlot := "",
            serviceDescription := "", providers := [],
            availableDates := [], timeSlots := [] }

/-- Observable outcome of one run of `handleBookAppointment`: the next
component state, the request sent (if any), and the arguments of the
`loadTimeSlots` re-query issued in the conflict branch (if any). -/
structure BookOutcome where
  state : CustomerState
  request : Option BookAppointmentRequest
  requeryArgs : Option (String × String)
deriving Repr, DecidableEq

/-- `handleBookAppointment`: guard on the three selections, build the
request, await the API; on success reset the form, on a conflict-classified
failure re-query the slots for the currently selected provider and date,
on any other failure only show the message. -/
def handleBookAppointment (parse : String → Instant)
    (api : BookAppointmentRequest → Except String Appointment)
    (reload : Except String (List TimeSlot))
    (st : CustomerState) : BookOutcome :=
  if st.selectedProvider = "" || st.selectedDate = "" || st.selectedTimeSlot = "" then
    ⟨st, none, none⟩
  else
    let req := mkBookRequest parse st
    match api req with
    | .ok _ => ⟨resetAfterSuccess st, some req, none⟩
    | .error msg =>
      if isSlotConflictMessage msg then
        if st.selectedProvider ≠ "" && st.selectedDate ≠ "" then
          ⟨loadTimeSlots st reload, some req, some (st.selectedProvider, st.selectedDate)⟩
        else
          ⟨st, some req, none⟩
      else
        ⟨st, some req, none⟩

/-- Helper: whenever `handleBookAppointment` issues a request, that request
is exactly `mkBookRequest parse st`. -/
theorem handleBook_request_shape (parse : String → Instant)
    (api : BookAppointmentRequest → Except String Appointment)
    (reload : Except String (List TimeSlot)) (st : CustomerState) :
    (handleBookAppointment parse api reload st).request = none ∨
    (handleBookAppointment parse api reload st).request = some (mkBookRequest parse st) := by
  unfold handleBookAppointment
  split
  · exact Or.inl rfl
  · cases h : api (mkBookRequest parse st) with
    | ok a => right; simp only [h]
    | error msg =>
      right
      simp only [h]
      split
      · split <;> rfl
      · rfl

/-! ## Concrete sample inputs used by the witnesses and counterexamples -/

def sampleInstant : Instant := ⟨9, 0, 0, "GMT+0000 (Coordinated Universal Time)"⟩

def sampleParse : String → Instant := fun _ => sampleInstant

def sampleState : CustomerState :=
  ⟨[], [], [], "doctor", "p1", "2024-01-01", "2024-01-01T09:00:00.000Z", ""⟩

def sampleAppointment : Appointment :=
  ⟨"a1", "c1", "p1", "2024-01-01", "09:00", "09:30", none, none, "scheduled",
   none, none, none, "2024-01-01T00:00:00Z", "2024-01-01T00:00:00Z"⟩

def okApi : BookAppointmentRequest → Except String Appointment :=
  fun _ => .ok sampleAppointment

def conflictApi : BookAppointmentRequest → Except String Appointment :=
  fun _ => .error "Unique constraint failed on the fields: providerId, appointmentDate, startTime"

def rejectApi : BookAppointmentRequest → Except String Appointment :=
  fun _ => .error "Network unreachable"

/-! ## Claims C3, C9, C5 -/

/-- C3: when the three selections are set and the selected slot start
parses to an instant with a valid local hour and minute, the `startTime`
of the booking request the client issues is the `HH:mm` 24-hour reduction
of that instant. -/
theorem C3_request_start_time_is_24h_reduction (parse : String → Instant)
    (api : BookAppointmentRequest → Except String Appointment)
    (reload : Except String (List TimeSlot)) (st : CustomerState)
    (hh : (parse st.selectedTimeSlot).hour < 24)
    (hm : (parse st.selectedTimeSlot).minute < 60) :
    ∀ req, (handleBookAppointment parse api reload st).request = some req →
      req.startTime = hhmm (parse st.selectedTimeSlot) := by
  intro req hreq
  rcases handleBook_request_shape parse api reload st with hnone | hsome
  · rw [hnone] at hreq; cases hreq
  · rw [hsome] at hreq
    cases hreq
    simpa [mkBookRequest] using formatTimeTo24Hour_eq_hhmm parse st.selectedTimeSlot hh hm

/-- Concrete instantiation for C3: booking from `sampleState` with a parser
returning 09:00 local time issues a request whose startTime is "09:00". -/
theorem C3_request_start_time_is_24h_reduction_witness :
    (handleBookAppointment sampleParse okApi (.ok []) sampleState).request =
      some (mkBookRequest sampleParse sampleState) ∧
    (mkBookRequest sampleParse sampleState).startTime = "09:00" := by
  refine ⟨by decide, ?_⟩
  have := C3_request_start_time_is_24h_reduction sampleParse okApi (.ok []) sampleState
    (by decide) (by decide) (mkBookRequest sampleParse sampleState) (by decide)
  rw [this]
  decide

/-- C9: after a successful booking, the client resets the whole cascading
selection state: all five selections are cleared and all three loaded lists
are emptied. -/
theorem C9_success_resets_cascading_state (parse : String → Instant)
    (api : BookAppointmentRequest → Except String Appointment)
    (reload : Except String (List TimeSlot)) (st : CustomerState) (a : Appointment)
    (hp : st.selectedProvider ≠ "") (hd : st.selectedDate ≠ "")
    (hs : st.selectedTimeSlot ≠ "")
    (hok : api (mkBookRequest parse st) = .ok a) :
    (handleBookAppointment parse api reload st).state =
      { providers := [], availableDates := [], timeSlots := [],
        selectedProviderType := "", selectedProvider := "", selectedDate := "",
        selectedTimeSlot := "", serviceDescription := "" } := by
  unfold handleBookAppointment
  rw [if_neg (by simp [hp, hd, hs])]
  simp only [hok]
  rfl

/-- Concrete instantiation for C9: a successful booking from `sampleState`
leaves the fully cleared state. -/
theorem C9_success_resets_cascading_state_witness :
    (handleBookAppointment sampleParse okApi (.ok []) sampleState).state =
      { providers := [], availableDates := [], timeSlots := [],
        selectedProviderType := "", selectedProvider := "", selectedDate := "",
        selectedTimeSlot := "", serviceDescription := "" } :=
  C9_success_resets_cascading_state sampleParse okApi (.ok []) sampleState
    sampleAppointment (by decide) (by decide) (by decide) rfl

/-- C5 counterexample: on a conflict-classified booking failure the client
does re-query the slots for the same provider and date, but the slot
selection is NOT left unchanged — `loadTimeSlots` clears it to the empty
string, so the claim as stated fails at this input. -/
theorem C5_counterexample_slot_selection_cleared :
    (handleBookAppointment sampleParse conflictApi (.ok []) sampleState).requeryArgs =
      some ("p1", "2024-01-01") ∧
    sampleState.selectedTimeSlot = "2024-01-01T09:00:00.000Z" ∧
    (handleBookAppointment sampleParse conflictApi (.ok []) sampleState).state.selectedTimeSlot =
      "" := by
  refine ⟨by decide, rfl, by decide⟩

/-- C5 amended: on a booking failure classified as a slot conflict, the
client re-queries the time slots for the currently selected provider and
date; the provider-type, provider and date selections, the service
description, and the provider and date lists stay unchanged, while the
slot selection is cleared and the slot list is replaced by the re-query
result.  On any other failure no re-query happens and the state is
entirely unchanged. -/
theorem C5_conflict_requeries_same_provider_date (parse : String → Instant)
    (api : BookAppointmentRequest → Except String Appointment)
    (reload : Except String (List TimeSlot)) (st : CustomerState) (msg : String)
    (hp : st.selectedProvider ≠ "") (hd : st.selectedDate ≠ "")
    (hs : st.selectedTimeSlot ≠ "")
    (herr : api (mkBookRequest parse st) = .error msg) :
    (isSlotConflictMessage msg = true →
      (handleBookAppointment parse api reload st).requeryArgs =
        some (st.selectedProvider, st.selectedDate) ∧
      (handleBookAppointment parse api reload st).state =
        loadTimeSlots st reload ∧
      (loadTimeSlots st reload).selectedProvider = st.selectedProvider ∧
      (loadTimeSlots st reload).selectedDate = st.selectedDate ∧
      (loadTimeSlots st reload).selectedProviderType = st.selectedProviderType ∧
      (loadTimeSlots st reload).serviceDescription = st.serviceDescription ∧
      (loadTimeSlots st reload).providers = st.providers ∧
      (loadTimeSlots st reload).availableDates = st.availableDates ∧
      (loadTimeSlots st reload).selectedTimeSlot = "") ∧
    (isSlotConflictMessage msg = false →
      (handleBookAppointment parse api reload st).requeryArgs = none ∧
      (handleBookAppointment parse api reload st).state = st) := by
  constructor
  · intro hconf
    unfold handleBookAppointment
    rw [if_neg (by simp [hp, hd, hs])]
    simp only [herr, hconf, if_pos, if_true]
    rw [if_pos (by simp [hp, hd])]
    refine ⟨rfl, rfl, ?_, ?_, ?_, ?_, ?_, ?_, ?_⟩ <;>
      cases reload <;> rfl
  · intro hnoconf
    unfold handleBookAppointment
    rw [if_neg (by simp [hp, hd, hs])]
    simp only [herr, hnoconf]
    exact ⟨rfl, rfl⟩

/-- Concrete instantiation for C5 (amended): a conflict failure from
`sampleState` re-queries slots for provider "p1" on "2024-01-01", and a
non-conflict failure re-queries nothing and changes nothing. -/
theorem C5_conflict_requeries_same_provider_date_witness :
    (handleBookAppointment sampleParse conflictApi (.ok []) sampleState).requeryArgs =
      some ("p1", "2024-01-01") ∧
    (handleBookAppointment sampleParse rejectApi (.ok []) sampleState).state = sampleState := by
  constructor
  · exact ((C5_conflict_requeries_same_provider_date sampleParse conflictApi (.ok [])
      sampleState _ (by decide) (by decide) (by decide) rfl).1 (by decide)).1
  · exact ((C5_conflict_requeries_same_provider_date sampleParse rejectApi (.ok [])
      sampleState _ (by decide) (by decide) (by decide) rfl).2 (by decide)).2

/-! ## Provider page schedule form (src/unnamed/part_004, handleSubmit) -/

/-- The `formData` cell of the Provider page: `dayOfWeek` is the raw
`Select` string, `slotMetric` the number the input change handler stored
via `parseInt` — clearing the field stores `parseInt("")`, which is
`NaN`. -/
structure ScheduleFormData where
  dayOfWeek : String
  startTime : String
  endTime : String
  slotMetric : JSNumber
  isCount : Bool
deriving Repr, DecidableEq

/-- Observable outcome of one run of `handleSubmit`: the request sent to
`createScheduleConfig` (if any), the error toast shown (if any), and the
`formData` and `showAddForm` cells after the run. -/
structure SubmitOutcome where
  request : Option ScheduleConfigRequest
  errorToast : Option String
  formAfter : ScheduleFormData
  showAddFormAfter : Bool
deriving Repr, DecidableEq

/-- The literal the success branch resets the form to. -/
def freshFormData : ScheduleFormData := ⟨"", "09:00", "17:00", .int 30, false⟩

/-- `handleSubmit`: require the day and both times to be nonempty, reject
when the JS comparison `slotMetric <= 0` holds (false whenever
`slotMetric` is `NaN`), then post the configuration; on success reset the
form and close it, on failure show the message. -/
def handleSubmit (parseIntStr : String → JSNumber)
    (api : ScheduleConfigRequest → Except String ScheduleConfig)
    (showAddForm : Bool) (fd : ScheduleFormData) : SubmitOutcome :=
  if fd.dayOfWeek = "" || fd.startTime = "" || fd.endTime = "" then
    ⟨none, some "Please fill in all required fields", fd, showAddForm⟩
  else if jsLe fd.slotMetric (.int 0) then
    ⟨none, some "Slot metric must be greater than 0", fd, showAddForm⟩
  else
    let req : ScheduleConfigRequest :=
      ⟨parseIntStr fd.dayOfWeek, fd.startTime, fd.endTime, fd.slotMetric, fd.isCount⟩
    match api req with
    | .ok _ => ⟨some req, none, freshFormData, false⟩
    | .error msg => ⟨some req, some msg, fd, showAddForm⟩

/-- C6 counterexample: with the slot-metric input cleared the change
handler has stored `parseInt("") = NaN`, the JS guard `NaN <= 0` is
false, and the submission does issue a `createScheduleConfig` request
whose `slotMetric` is `NaN` — which is not greater than 0 — so the claim
that a request is issued only if `slotMetric > 0` fails at this input. -/
theorem C6_counterexample_nan_slot_metric :
    (handleSubmit (fun _ => .int 1) (fun _ => .error "unused") true
        ⟨"1", "09:00", "17:00", .nan, false⟩).request =
      some ⟨.int 1, "09:00", "17:00", .nan, false⟩ ∧
    jsGt JSNumber.nan (.int 0) = false ∧
    jsLe JSNumber.nan (.int 0) = false := by
  decide

/-- C6 amended: a `createScheduleConfig` request is issued only if
`slotMetric > 0` or `slotMetric` is `NaN` (the `parseInt` result of a
cleared input, which the JS guard cannot catch), and the issued request
carries that metric; whenever the JS comparison `slotMetric <= 0` holds —
which excludes `NaN` — the submission fails with a validation message, no
request is sent, and the form state is unchanged. -/
theorem C6_slot_metric_validation (parseIntStr : String → JSNumber)
    (api : ScheduleConfigRequest → Except String ScheduleConfig)
    (saf : Bool) (fd : ScheduleFormData) :
    (∀ req, (handleSubmit parseIntStr api saf fd).request = some req →
        (jsGt fd.slotMetric (.int 0) = true ∨ fd.slotMetric = .nan) ∧
        req.slotMetric = fd.slotMetric) ∧
    (jsLe fd.slotMetric (.int 0) = true →
      (handleSubmit parseIntStr api saf fd).request = none ∧
      ((handleSubmit parseIntStr api saf fd).errorToast).isSome = true ∧
      (handleSubmit parseIntStr api saf fd).formAfter = fd ∧
      (handleSubmit parseIntStr api saf fd).showAddFormAfter = saf) := by
  constructor
  · intro req hreq
    unfold handleSubmit at hreq
    split at hreq
    · cases hreq
    · split at hreq
      · cases hreq
      · rename_i hguard hmetric
        have hcase : jsGt fd.slotMetric (.int 0) = true ∨ fd.slotMetric = .nan := by
          cases hsm : fd.slotMetric with
          | nan => exact Or.inr rfl
          | int i =>
            left
            rw [hsm] at hmetric
            simp only [jsLe, decide_eq_true_eq] at hmetric
            simp only [jsGt, decide_eq_true_eq]
            omega
        cases h : api ⟨parseIntStr fd.dayOfWeek, fd.startTime, fd.endTime,
            fd.slotMetric, fd.isCount⟩ with
        | ok c =>
          simp only [h, Option.some.injEq] at hreq
          subst hreq
          exact ⟨hcase, rfl⟩
        | error msg =>
          simp only [h, Option.some.injEq] at hreq
          subst hreq
          exact ⟨hcase, rfl⟩
  · intro hle
    unfold handleSubmit
    split
    · exact ⟨rfl, rfl, rfl, rfl⟩
    · exact ⟨rfl, rfl, rfl, rfl⟩

/-- Concrete instantiation for C6 (amended): a form with
`slotMetric = 0` sends no request, shows a validation toast, and leaves
the form untouched. -/
theorem C6_slot_metric_validation_witness :
    (handleSubmit (fun _ => .int 1) (fun _ => .error "unused") true
        ⟨"1", "09:00", "17:00", .int 0, false⟩).request = none ∧
    (handleSubmit (fun _ => .int 1) (fun _ => .error "unused") true
        ⟨"1", "09:00", "17:00", .int 0, false⟩).formAfter =
      ⟨"1", "09:00", "17:00", .int 0, false⟩ := by
  have h := (C6_slot_metric_validation (fun _ => .int 1) (fun _ => .error "unused")
      true ⟨"1", "09:00", "17:00", .int 0, false⟩).2 (by decide)
  exact ⟨h.1, h.2.2.1⟩

/-! ## The availability/capacity engine

The engine lives in the backend, which is not part of this repository;
only its request/response contract appears in src/.  Everything in this
section is therefore modelled from the specification text (sections 3,
4.1, 4.2, 4.4 and 5 of spec.md).  Wall-clock times are minutes since
midnight; calendar dates are day indices with weekday `date % 7`
(day 0 chosen to be a Sunday, matching the 0 = Sunday convention). -/

/-- Modelled from the spec: `WeeklyScheduleRule` (spec section 3); the
backend store of recurring weekly availability rules is absent from src/. -/
structure WeeklyScheduleRule where
  providerId : String
  dayOfWeek : Nat
  startTime : Nat
  endTime : Nat
  isCount : Bool
  slotMetric : Nat
deriving Repr, DecidableEq

/-- Modelled from the spec: derived `TimeWindow` (spec section 3). -/
structure TimeWindow where
  providerId : String
  date : Nat
  startTime : Nat
  endTime : Nat
  capacity : Nat
deriving Repr, DecidableEq

/-- Modelled from the spec: the TimeDivided branch of the Slot Generator
(spec 4.1), absent from src/ — starting at `cur`, emit consecutive windows
of `m` minutes while the next window still ends by `stop`; the trailing
partial remainder is dropped.  `fuel` only bounds the recursion and any
value of at least `(stop - cur) / m` is enough. -/
def emitTimeDivided (pid : String) (date m : Nat) : Nat → Nat → Nat → List TimeWindow
  | 0, _, _ => []
  | fuel + 1, cur, stop =>
    if cur + m ≤ stop then
      ⟨pid, date, cur, cur + m, 1⟩ :: emitTimeDivided pid date m fuel (cur + m) stop
    else []

/-- Modelled from the spec: the Slot Generator (spec 4.1), absent from
src/ — one rule expanded on one matching date. -/
def generateWindows (rule : WeeklyScheduleRule) (date : Nat) : List TimeWindow :=
  if rule.isCount then
    [⟨rule.providerId, date, rule.startTime, rule.endTime, rule.slotMetric⟩]
  else
    emitTimeDivided rule.providerId date rule.slotMetric
      rule.endTime rule.startTime rule.endTime

theorem emitTimeDivided_closed (pid : String) (date m : Nat) (hm : 0 < m) :
    ∀ fuel cur stop, stop - cur ≤ fuel * m →
      emitTimeDivided pid date m fuel cur stop =
        (List.range ((stop - cur) / m)).map
          (fun i => ⟨pid, date, cur + i * m, cur + (i + 1) * m, 1⟩) := by
  intro fuel
  induction fuel with
  | zero =>
    intro cur stop hbound
    have h0 : (stop - cur) / m = 0 := by
      have : stop - cur = 0 := by omega
      simp [this]
    simp [emitTimeDivided, h0]
  | succ fuel ih =>
    intro cur stop hbound
    by_cases hstep : cur + m ≤ stop
    · have hmle : m ≤ stop - cur := by omega
      have hdiv : (stop - cur) / m = (stop - cur - m) / m + 1 :=
        Nat.div_eq_sub_div hm hmle
      have hshift : stop - (cur + m) = stop - cur - m := by omega
      have hexp : (fuel + 1) * m = fuel * m + m := by ring
      have hih := ih (cur + m) stop (by omega)
      simp only [emitTimeDivided]
      rw [if_pos hstep, hih, hshift, hdiv, List.range_succ_eq_map]
      simp only [List.map_cons, List.map_map, List.cons.injEq]
      refine ⟨by simp, ?_⟩
      apply List.map_congr_left
      intro i _
      have h1 : cur + m + i * m = cur + (i + 1) * m := by ring
      have h2 : cur + m + (i + 1) * m = cur + (i + 1 + 1) * m := by ring
      simp [Function.comp, Nat.succ_eq_add_one, TimeWindow.mk.injEq, h1, h2]
    · have h0 : (stop - cur) / m = 0 := Nat.div_eq_of_lt (by omega)
      simp only [emitTimeDivided]
      rw [if_neg hstep]
      simp [h0]

/-- Modelled from the spec: Appointment status state machine
(spec section 3): scheduled, with cancellation handled elsewhere. -/
inductive AppointmentStatus where
  | scheduled
  | cancelled
deriving Repr, DecidableEq

/-- Modelled from the spec: a persisted backend Appointment row
(spec section 3); the Booking Ledger holding these is absent from src/. -/
structure AppointmentRow where
  customerId : String
  providerId : String
  date : Nat
  startTime : Nat
  endTime : Nat
  status : AppointmentStatus
  serviceDescription : Option String
deriving Repr, DecidableEq

/-- Modelled from the spec: Booking Ledger (spec 4.2), absent from src/ —
the count of non-cancelled appointments on one
(providerId, date, startTime, endTime) window. -/
def countScheduled (ledger : List AppointmentRow) (pid : String)
    (date s e : Nat) : Nat :=
  (ledger.filter (fun a => a.providerId == pid && a.date == date &&
      a.startTime == s && a.endTime == e &&
      a.status == AppointmentStatus.scheduled)).length

/-- Stable insertion step for window ordering: startTime first, endTime
second (spec 4.1). -/
def insertWindow (w : TimeWindow) : List TimeWindow → List TimeWindow
  | [] => [w]
  | v :: rest =>
    if w.startTime < v.startTime ||
        (w.startTime == v.startTime && w.endTime ≤ v.endTime) then
      w :: v :: rest
    else
      v :: insertWindow w rest

/-- Sort windows by startTime, then endTime (spec 4.1). -/
def sortWindows : List TimeWindow → List TimeWindow
  | [] => []
  | w :: rest => insertWindow w (sortWindows rest)

/-- Modelled from the spec: all windows of a provider on a date (spec 4.1):
every rule matching the weekday generates its windows independently and
the concatenation is sorted by startTime then endTime, without merging. -/
def windowsForDate (rules : List WeeklyScheduleRule) (pid : String)
    (date : Nat) : List TimeWindow :=
  sortWindows
    ((rules.filter (fun r => r.providerId == pid && r.dayOfWeek == date % 7)).flatMap
      (fun r => generateWindows r date))

/-- Modelled from the spec: error taxonomy of the admission path
(spec section 7). -/
inductive BookError where
  | NotFound
  | OutOfWindow
  | OutOfHorizon
  | SlotFull
  | ValidationError
deriving Repr, DecidableEq

/-- Modelled from the spec: the validated backend booking request
(spec 4.4): providerId, date, startTime and an optional service
description — the request carries no end time. -/
structure AdmissionRequest where
  providerId : String
  date : Nat
  startTime : Nat
  serviceDescription : Option String
deriving Repr, DecidableEq

/-- Modelled from the spec: Booking Admission Controller (spec 4.4),
absent from src/.  Resolve the window from the current rules (NotFound if
none exist, OutOfWindow if the start time aligns to no window), reject
dates outside `[today, today + bookingLimitDays]` as OutOfHorizon,
recompute the remaining capacity from the ledger at commit time, reject
SlotFull when nothing remains, else insert a scheduled row whose endTime
is taken from the resolved window. -/
def book (today bookingLimitDays : Nat) (rules : List WeeklyScheduleRule)
    (customerId : String) (req : AdmissionRequest)
    (ledger : List AppointmentRow) :
    Except BookError (AppointmentRow × List AppointmentRow) :=
  let windows := windowsForDate rules req.providerId req.date
  if windows.isEmpty then .error .NotFound
  else
    match windows.find? (fun w => w.startTime == req.startTime) with
    | none => .error .OutOfWindow
    | some w =>
      if req.date < today || today + bookingLimitDays < req.date then
        .error .OutOfHorizon
      else
        let remaining := w.capacity -
          countScheduled ledger req.providerId req.date w.startTime w.endTime
        if remaining = 0 then .error .SlotFull
        else
          let row : AppointmentRow :=
            ⟨customerId, req.providerId, req.date, w.startTime, w.endTime,
             .scheduled, req.serviceDescription⟩
          .ok (row, ledger ++ [row])

/-- Modelled from the spec: section 5 — admission is the one atomic
critical section, so any execution of N concurrent identical booking
attempts is a serialization: N sequential `book` calls, each reading the
ledger the previous call left. -/
def runBookings (today limit : Nat) (rules : List WeeklyScheduleRule)
    (cid : String) (req : AdmissionRequest) :
    Nat → List AppointmentRow → List (Except BookError AppointmentRow)
  | 0, _ => []
  | n + 1, ledger =>
    match book today limit rules cid req ledger with
    | .ok (row, ledger2) => .ok row :: runBookings today limit rules cid req n ledger2
    | .error e => .error e :: runBookings today limit rules cid req n ledger

/-- Did one admission attempt succeed? -/
def isOkResult : Except BookError AppointmentRow → Bool
  | .ok _ => true
  | .error _ => false

theorem generateWindows_timeDivided (rule : WeeklyScheduleRule) (date : Nat)
    (hmode : rule.isCount = false) (hm : 0 < rule.slotMetric) :
    generateWindows rule date =
      (List.range ((rule.endTime - rule.startTime) / rule.slotMetric)).map
        (fun i => ⟨rule.providerId, date, rule.startTime + i * rule.slotMetric,
                   rule.startTime + (i + 1) * rule.slotMetric, 1⟩) := by
  have hb : rule.endTime - rule.startTime ≤ rule.endTime * rule.slotMetric := by
    calc rule.endTime - rule.startTime ≤ rule.endTime := Nat.sub_le _ _
    _ = rule.endTime * 1 := (Nat.mul_one _).symm
    _ ≤ rule.endTime * rule.slotMetric := Nat.mul_le_mul_left _ hm
  rw [generateWindows, if_neg (by simp [hmode])]
  exact emitTimeDivided_closed _ _ _ hm _ _ _ hb

/-- C7: for a TimeDivided rule on a matching date, the generator emits the
consecutive windows of `slotMetric` minutes starting at `startTime` (the
closed form below), every emitted window has capacity 1, length
`slotMetric`, and ends no later than `endTime` (the trailing partial
remainder is dropped); in particular a 09:00–17:10 rule with
`slotMetric = 30` yields exactly the windows ending 09:30, 10:00, …, 17:00
and omits 17:00–17:10. -/
theorem C7_time_divided_generation (rule : WeeklyScheduleRule) (date : Nat)
    (hmode : rule.isCount = false) (hm : 0 < rule.slotMetric) :
    (generateWindows rule date =
      (List.range ((rule.endTime - rule.startTime) / rule.slotMetric)).map
        (fun i => ⟨rule.providerId, date, rule.startTime + i * rule.slotMetric,
                   rule.startTime + (i + 1) * rule.slotMetric, 1⟩)) ∧
    (∀ w ∈ generateWindows rule date,
      w.capacity = 1 ∧ w.endTime = w.startTime + rule.slotMetric ∧
        w.endTime ≤ rule.endTime) ∧
    ((generateWindows ⟨"p", 2, 540, 1030, false, 30⟩ 9).map
        (fun w => (w.startTime, w.endTime)) =
      [(540, 570), (570, 600), (600, 630), (630, 660), (660, 690), (690, 720),
       (720, 750), (750, 780), (780, 810), (810, 840), (840, 870), (870, 900),
       (900, 930), (930, 960), (960, 990), (990, 1020)]) := by
  refine ⟨generateWindows_timeDivided rule date hmode hm, ?_, by decide⟩
  intro w hw
  rw [generateWindows_timeDivided rule date hmode hm] at hw
  obtain ⟨i, hi, hwe⟩ := List.mem_map.mp hw
  have hirange : i < (rule.endTime - rule.startTime) / rule.slotMetric :=
    List.mem_range.mp hi
  subst hwe
  refine ⟨rfl, by ring, ?_⟩
  have h2 : (i + 1) * rule.slotMetric ≤
      ((rule.endTime - rule.startTime) / rule.slotMetric) * rule.slotMetric :=
    Nat.mul_le_mul_right _ (by omega)
  have h3 : ((rule.endTime - rule.startTime) / rule.slotMetric) * rule.slotMetric ≤
      rule.endTime - rule.startTime := Nat.div_mul_le_self _ _
  have h4 : (i + 1) * rule.slotMetric ≤ rule.endTime - rule.startTime :=
    le_trans h2 h3
  have h5 : rule.slotMetric ≤ (i + 1) * rule.slotMetric :=
    Nat.le_mul_of_pos_left _ (Nat.succ_pos i)
  show rule.startTime + (i + 1) * rule.slotMetric ≤ rule.endTime
  omega

/-- Concrete instantiation for C7: the 09:00–17:10 rule with 30-minute
slots expands to the sixteen half-hour windows given by the closed form. -/
theorem C7_time_divided_generation_witness :
    generateWindows ⟨"p", 2, 540, 1030, false, 30⟩ 9 =
      (List.range ((1030 - 540) / 30)).map
        (fun i => ⟨"p", 9, 540 + i * 30, 540 + (i + 1) * 30, 1⟩) :=
  (C7_time_divided_generation ⟨"p", 2, 540, 1030, false, 30⟩ 9 rfl (by decide)).1

theorem countScheduled_append_matching (ledger : List AppointmentRow)
    (cid pid : String) (date s e : Nat) (sd : Option String) :
    countScheduled (ledger ++ [⟨cid, pid, date, s, e, .scheduled, sd⟩])
        pid date s e =
      countScheduled ledger pid date s e + 1 := by
  simp [countScheduled, List.filter_append]

theorem book_step (today limit : Nat) (rules : List WeeklyScheduleRule)
    (cid : String) (req : AdmissionRequest) (w : TimeWindow)
    (hfind : (windowsForDate rules req.providerId req.date).find?
        (fun v => v.startTime == req.startTime) = some w)
    (hhor : (req.date < today || today + limit < req.date) = false)
    (ledger : List AppointmentRow) :
    book today limit rules cid req ledger =
      if countScheduled ledger req.providerId req.date w.startTime w.endTime <
          w.capacity then
        .ok (⟨cid, req.providerId, req.date, w.startTime, w.endTime, .scheduled,
              req.serviceDescription⟩,
             ledger ++ [⟨cid, req.providerId, req.date, w.startTime, w.endTime,
              .scheduled, req.serviceDescription⟩])
      else .error .SlotFull := by
  have hne : (windowsForDate rules req.providerId req.date).isEmpty = false := by
    cases h : windowsForDate rules req.providerId req.date with
    | nil => rw [h] at hfind; simp [List.find?] at hfind
    | cons a l => simp
  unfold book
  simp only [hne, hfind, hhor, Bool.false_eq_true, if_false]
  by_cases hc : countScheduled ledger req.providerId req.date w.startTime w.endTime <
      w.capacity
  · rw [if_pos hc,
      if_neg (by omega :
        ¬ w.capacity - countScheduled ledger req.providerId req.date w.startTime w.endTime = 0)]
  · rw [if_neg hc,
      if_pos (by omega :
        w.capacity - countScheduled ledger req.providerId req.date w.startTime w.endTime = 0)]

theorem runBookings_spec (today limit : Nat) (rules : List WeeklyScheduleRule)
    (cid : String) (req : AdmissionRequest) (w : TimeWindow)
    (hfind : (windowsForDate rules req.providerId req.date).find?
        (fun v => v.startTime == req.startTime) = some w)
    (hhor : (req.date < today || today + limit < req.date) = false) :
    ∀ n ledger,
      ((runBookings today limit rules cid req n ledger).countP isOkResult =
        min n (w.capacity -
          countScheduled ledger req.providerId req.date w.startTime w.endTime)) ∧
      ((runBookings today limit rules cid req n ledger).countP
          (fun r => !(isOkResult r)) =
        n - min n (w.capacity -
          countScheduled ledger req.providerId req.date w.startTime w.endTime)) ∧
      (∀ r ∈ runBookings today limit rules cid req n ledger,
        isOkResult r = false → r = .error .SlotFull) ∧
      (runBookings today limit rules cid req n ledger).length = n := by
  intro n
  induction n with
  | zero => intro ledger; simp [runBookings]
  | succ n ih =>
    intro ledger
    by_cases hlt : countScheduled ledger req.providerId req.date w.startTime w.endTime <
        w.capacity
    · have hbook := book_step today limit rules cid req w hfind hhor ledger
      rw [if_pos hlt] at hbook
      obtain ⟨ih1, ih2, ih3, ih4⟩ := ih (ledger ++
        [⟨cid, req.providerId, req.date, w.startTime, w.endTime, .scheduled,
          req.serviceDescription⟩])
      have hcount := countScheduled_append_matching ledger cid req.providerId
        req.date w.startTime w.endTime req.serviceDescription
      rw [hcount] at ih1 ih2
      simp only [runBookings, hbook]
      refine ⟨?_, ?_, ?_, ?_⟩
      · rw [List.countP_cons_of_pos _ _ rfl, ih1]
        omega
      · rw [List.countP_cons_of_neg _ _ (by simp [isOkResult]), ih2]
        omega
      · intro r hr hfalse
        rcases List.mem_cons.mp hr with hhead | htail
        · subst hhead; simp [isOkResult] at hfalse
        · exact ih3 r htail hfalse
      · rw [List.length_cons, ih4]
    · have hbook := book_step today limit rules cid req w hfind hhor ledger
      rw [if_neg hlt] at hbook
      obtain ⟨ih1, ih2, ih3, ih4⟩ := ih ledger
      simp only [runBookings, hbook]
      refine ⟨?_, ?_, ?_, ?_⟩
      · rw [List.countP_cons_of_neg _ _ (by simp [isOkResult]), ih1]
        omega
      · rw [List.countP_cons_of_pos _ _ rfl, ih2]
        omega
      · intro r hr hfalse
        rcases List.mem_cons.mp hr with hhead | htail
        · subst hhead; rfl
        · exact ih3 r htail hfalse
      · rw [List.length_cons, ih4]

/-- C8: admission is an atomic critical section (spec section 5), so N
concurrent `book` calls for one window serialize into N sequential calls;
on a window of capacity K starting from an empty ledger, exactly
`min N K` of them succeed and every failed call fails with SlotFull — for
a TimeDivided window (capacity 1) that is exactly 1 success and N − 1
SlotFull failures. -/
theorem C8_concurrent_bookings_min_capacity (today limit : Nat)
    (rules : List WeeklyScheduleRule) (cid : String) (req : AdmissionRequest)
    (w : TimeWindow) (n : Nat) (ledger : List AppointmentRow)
    (hfind : (windowsForDate rules req.providerId req.date).find?
        (fun v => v.startTime == req.startTime) = some w)
    (hhor1 : today ≤ req.date) (hhor2 : req.date ≤ today + limit)
    (hfresh : countScheduled ledger req.providerId req.date w.startTime w.endTime = 0) :
    ((runBookings today limit rules cid req n ledger).countP isOkResult =
      min n w.capacity) ∧
    (∀ r ∈ runBookings today limit rules cid req n ledger,
      isOkResult r = false → r = .error .SlotFull) ∧
    ((runBookings today limit rules cid req n ledger).length = n) ∧
    (w.capacity = 1 → 1 ≤ n →
      (runBookings today limit rules cid req n ledger).countP isOkResult = 1 ∧
      (runBookings today limit rules cid req n ledger).countP
          (fun r => !(isOkResult r)) = n - 1) := by
  have hhor : (req.date < today || today + limit < req.date) = false := by
    simp only [Bool.or_eq_false_iff, decide_eq_false_iff_not]
    omega
  obtain ⟨h1, h2, h3, h4⟩ := runBookings_spec today limit rules cid req w hfind hhor n ledger
  rw [hfresh] at h1 h2
  refine ⟨by simpa using h1, h3, h4, ?_⟩
  intro hcap hn
  constructor
  · rw [h1]; omega
  · rw [h2]; omega

/-- Concrete instantiation for C8: three serialized attempts on a
TimeDivided window (capacity 1) give one success and two SlotFull
failures; three attempts on a CountBased window with capacity 2 give two
successes. -/
theorem C8_concurrent_bookings_min_capacity_witness :
    ((runBookings 5 10 [⟨"p", 2, 540, 600, false, 30⟩] "c1" ⟨"p", 9, 540, none⟩
        3 []).countP isOkResult = 1 ∧
     (runBookings 5 10 [⟨"p", 2, 540, 600, false, 30⟩] "c1" ⟨"p", 9, 540, none⟩
        3 []).countP (fun r => !(isOkResult r)) = 2) ∧
    (runBookings 5 10 [⟨"p", 2, 540, 600, true, 2⟩] "c1" ⟨"p", 9, 540, none⟩
        3 []).countP isOkResult = 2 := by
  constructor
  · have h := C8_concurrent_bookings_min_capacity 5 10
      [⟨"p", 2, 540, 600, false, 30⟩] "c1" ⟨"p", 9, 540, none⟩
      ⟨"p", 9, 540, 570, 1⟩ 3 [] (by decide) (by decide) (by decide) rfl
    exact h.2.2.2 rfl (by decide)
  · have h := C8_concurrent_bookings_min_capacity 5 10
      [⟨"p", 2, 540, 600, true, 2⟩] "c1" ⟨"p", 9, 540, none⟩
      ⟨"p", 9, 540, 600, 2⟩ 3 [] (by decide) (by decide) (by decide) rfl
    exact h.1.trans (by decide)

/-- C4: a booking request is exactly its four fields providerId,
appointmentDate, startTime and optional serviceDescription (there is no
endTime to supply); every request `handleBookAppointment` issues is built
from the current selections by `mkBookRequest`; and when the admission
controller accepts a request, the inserted appointment takes both its
start and end time from the window it resolved from the current rules. -/
theorem C4_request_fields_and_derived_end_time :
    (∀ r : BookAppointmentRequest,
      r = ⟨r.providerId, r.appointmentDate, r.startTime, r.serviceDescription⟩) ∧
    (∀ (parse : String → Instant)
        (api : BookAppointmentRequest → Except String Appointment)
        (reload : Except String (List TimeSlot)) (st : CustomerState)
        (req : BookAppointmentRequest),
      (handleBookAppointment parse api reload st).request = some req →
        req = mkBookRequest parse st) ∧
    (∀ (today limit : Nat) (rules : List WeeklyScheduleRule) (cid : String)
        (req : AdmissionRequest) (ledger : List AppointmentRow)
        (row : AppointmentRow) (ledger2 : List AppointmentRow),
      book today limit rules cid req ledger = .ok (row, ledger2) →
        ∃ w, (windowsForDate rules req.providerId req.date).find?
            (fun v => v.startTime == req.startTime) = some w ∧
          row.endTime = w.endTime ∧ row.startTime = w.startTime) := by
  refine ⟨fun r => rfl, ?_, ?_⟩
  · intro parse api reload st req hreq
    rcases handleBook_request_shape parse api reload st with hnone | hsome
    · rw [hnone] at hreq; cases hreq
    · rw [hsome] at hreq
      cases hreq
      rfl
  · intro today limit rules cid req ledger row ledger2 hbook
    simp only [book] at hbook
    split at hbook
    · cases hbook
    · split at hbook
      · cases hbook
      · rename_i w hfind
        split at hbook
        · cases hbook
        · split at hbook
          · cases hbook
          · simp only [Except.ok.injEq, Prod.mk.injEq] at hbook
            obtain ⟨h1, h2⟩ := hbook
            subst h1
            exact ⟨w, hfind, rfl, rfl⟩

/-- Concrete instantiation for C4: a concrete accepted booking resolves
the 09:00–09:30 window and the inserted row carries its end time. -/
theorem C4_request_fields_and_derived_end_time_witness :
    ∃ w, (windowsForDate [⟨"p", 2, 540, 600, false, 30⟩] "p" 9).find?
        (fun v => v.startTime == (540 : Nat)) = some w ∧
      (⟨"c1", "p", 9, 540, 570, .scheduled, none⟩ : AppointmentRow).endTime =
        w.endTime ∧
      (⟨"c1", "p", 9, 540, 570, .scheduled, none⟩ : AppointmentRow).startTime =
        w.startTime :=
  C4_request_fields_and_derived_end_time.2.2 5 10 [⟨"p", 2, 540, 600, false, 30⟩]
    "c1" ⟨"p", 9, 540, none⟩ [] ⟨"c1", "p", 9, 540, 570, .scheduled, none⟩
    [⟨"c1", "p", 9, 540, 570, .scheduled, none⟩] (by rfl)

end Booking
